import Mathlib

/-!
Shallow embedding of the Kode Dot PTT client (`src/src/main.cpp`), covering
the PTT session engine: the capture loop (`i2s_read_task`), the button poll
task (`ptt_button_task`), the WebSocket event handler (`webSocketEvent`),
the main control loop (`loop`, steps 3-5), and the auth flow
(`loginAndGetDevice` / `tryRegisterUser`).  Times are modelled as
milliseconds in `Nat`; the C++ `unsigned long` subtraction `millis() - t`
is modelled as `(now - t) % 2^32` (equal to `now - t` whenever
`t ≤ now < t + 2^32`).
-/

namespace PTT

/-- Constant `AUDIO_DECAY_MS` from the source: how long "incoming" stays visible. -/
def AUDIO_DECAY_MS : Nat := 1200

/-- Constant `KEEPALIVE_MS` from the source: WebSocket keepalive period. -/
def KEEPALIVE_MS : Nat := 20000

/-- RGB triple as passed to `led_set_rgb(r, g, b)`. -/
structure Rgb where
  r : Nat
  g : Nat
  b : Nat
deriving DecidableEq, Repr

/-- Colour `led_set_rgb(0, 50, 0)` — the "talking" colour. -/
def green : Rgb := ⟨0, 50, 0⟩

/-- Colour `led_set_rgb(60, 30, 0)` — the "incoming" colour. -/
def orange : Rgb := ⟨60, 30, 0⟩

/-- Colour `led_set_rgb(0, 0, 0)` — LED off. -/
def ledOff : Rgb := ⟨0, 0, 0⟩

/-!
Capture loop (`i2s_read_task`, main.cpp lines 737-758).

Each loop iteration performs one blocking `i2s_read` and then decides
whether to forward the frame.  An iteration is modelled by the data the
source inspects at that instant: the error status of the read, the number
of bytes read, and the two shared flags `isPttActive` and
`isWebSocketConnected` as they are read inside the iteration.  `frameId`
identifies the captured frame so that traces can speak about a particular
frame.
-/

structure CaptureInput where
  /-- Whether `err != ESP_OK` for the `i2s_read` call of this iteration. -/
  readErr : Bool
  /-- Count `bytes_read` reported by `i2s_read`. -/
  bytesRead : Nat
  /-- Value of `isPttActive` read in the send condition of this iteration. -/
  ptt : Bool
  /-- Value of `isWebSocketConnected` read in the send condition of this iteration. -/
  connected : Bool
  /-- identity of the frame captured by this iteration. -/
  frameId : Nat
deriving DecidableEq, Repr

/-- One iteration of the `while (true)` body of `i2s_read_task`: on a read error
the iteration prints and `continue`s (sends nothing); otherwise it calls
`webSocket.sendBIN` exactly when `isPttActive && isWebSocketConnected &&
bytes_read > 0`. Returns the frame forwarded to the transport, if any. -/
def captureSend (i : CaptureInput) : Option Nat :=
  if i.readErr then none
  else if i.ptt && i.connected && decide (0 < i.bytesRead) then some i.frameId
  else none

/-- The sequence of frames forwarded to `sendBIN` over a run of the capture
loop.  The loop holds no buffer across iterations: each iteration either
sends its own frame immediately or drops it. -/
def captureRun : List CaptureInput → List Nat
  | [] => []
  | i :: rest =>
    match captureSend i with
    | some f => f :: captureRun rest
    | none => captureRun rest

/-!
Button poll task (`ptt_button_task`, main.cpp lines 711-731).

The task polls the active-low button every 20 ms; on a change of the
debounced reading it publishes the new state (`isPttActive = currentState;
pttStateChanged = true`).  The published edge is the event.
-/

inductive PttEvent
  | activated
  | deactivated
deriving DecidableEq, Repr

/-- Reading `currentState = !io_expander.read1(...)`: the button is active-low. -/
def buttonState (rawLevel : Bool) : Bool := !rawLevel

/-- One poll of `ptt_button_task`: given the previous `lastState` and the
current debounced reading, emit an edge event iff the state changed, and
return the new `lastState`. -/
def monitorStep (lastState cur : Bool) : Option PttEvent × Bool :=
  if cur ≠ lastState then
    (some (if cur then .activated else .deactivated), cur)
  else (none, lastState)

/-- The stream of events emitted over a sequence of polls. -/
def monitorRun (lastState : Bool) : List Bool → List PttEvent
  | [] => []
  | c :: rest =>
    match monitorStep lastState c with
    | (some e, l) => e :: monitorRun l rest
    | (none, l) => monitorRun l rest

/-- Effect of consuming one published edge on the PTT State: the publish
writes `isPttActive = currentState`, so the consumed event carries the new
state value outright (not a toggle). -/
def applyPttEvent (_s : Bool) (e : PttEvent) : Bool :=
  match e with
  | .activated => true
  | .deactivated => false

/-- PTT State after the Session Controller has consumed a finite sequence
of edge events, starting from the initial `isPttActive = false`. -/
def pttStateAfter (evs : List PttEvent) : Bool :=
  evs.foldl applyPttEvent false

end PTT

namespace PTT

/-- Folding `applyPttEvent` only looks at the last event. -/
theorem foldl_applyPttEvent_eq_getLast (evs : List PttEvent) (b : Bool) :
    evs.foldl applyPttEvent b =
      match evs.getLast? with
      | none => b
      | some e => applyPttEvent b e := by
  induction evs generalizing b with
  | nil => rfl
  | cons e rest ih =>
    cases rest with
    | nil => rfl
    | cons e2 rest2 =>
      rw [List.foldl_cons, ih]
      cases h : (e2 :: rest2).getLast? with
      | none => simp [List.getLast?] at h
      | some x =>
        have : (e :: e2 :: rest2).getLast? = some x := by
          rw [List.getLast?_cons_cons, h]
        rw [this]
        cases x <;> rfl

/-- Claim C3: for every finite sequence of edge events the resulting PTT
State is active exactly when the last event is `PttActivated` (two
activations in a row leave the state active), and a poll of the Input
Monitor emits `PttActivated` exactly on a Released-to-Pressed transition
and `PttDeactivated` exactly on a Pressed-to-Released transition. -/
theorem ptt_state_last_event_and_monitor_edges :
    (∀ evs : List PttEvent,
      pttStateAfter evs = true ↔ evs.getLast? = some .activated) ∧
    (∀ lastState cur : Bool,
      ((monitorStep lastState cur).1 = some .activated ↔
        (lastState = false ∧ cur = true)) ∧
      ((monitorStep lastState cur).1 = some .deactivated ↔
        (lastState = true ∧ cur = false))) := by
  constructor
  · intro evs
    rw [pttStateAfter, foldl_applyPttEvent_eq_getLast]
    cases h : evs.getLast? with
    | none => simp
    | some e => cases e <;> simp [applyPttEvent]
  · decide

/-- An iteration either sends nothing or sends exactly its own frame. -/
theorem captureSend_none_or_own (i : CaptureInput) :
    captureSend i = none ∨ captureSend i = some i.frameId := by
  unfold captureSend
  split
  · exact Or.inl rfl
  · split
    · exact Or.inr rfl
    · exact Or.inl rfl

/-- The frames sent over a run are exactly the frames of the iterations
whose send condition held, in order. -/
theorem captureRun_eq_filter_map (tr : List CaptureInput) :
    captureRun tr =
      (tr.filter (fun i => (captureSend i).isSome)).map (·.frameId) := by
  induction tr with
  | nil => rfl
  | cons i rest ih =>
    rcases captureSend_none_or_own i with h | h
    · rw [captureRun, h]
      simp [List.filter_cons, h, ih]
    · rw [captureRun, h]
      simp [List.filter_cons, h, ih]

/-- Claim C1: a frame produced by the capture loop (successful read,
`bytes_read > 0`) is forwarded to `sendBIN` iff, at that instant,
`isPttActive` and `isWebSocketConnected` both hold; and over any run of
the loop, a frame captured in an iteration where PTT was inactive never
appears among the frames sent (no queueing, no later send). -/
theorem capture_forward_iff_active_connected :
    (∀ i : CaptureInput, i.readErr = false → 0 < i.bytesRead →
      ((captureSend i).isSome = (i.ptt && i.connected))) ∧
    (∀ (tr : List CaptureInput) (i : CaptureInput), i ∈ tr →
      i.ptt = false →
      (∀ j ∈ tr, j.frameId = i.frameId → j = i) →
      i.frameId ∉ captureRun tr) := by
  constructor
  · intro i herr hbytes
    simp [captureSend, herr, hbytes]
    cases i.ptt <;> cases i.connected <;> simp
  · intro tr i _ hptt huniq hsent
    rw [captureRun_eq_filter_map] at hsent
    rcases List.mem_map.mp hsent with ⟨j, hj, hjid⟩
    rcases List.mem_filter.mp hj with ⟨hjtr, hjsome⟩
    have hji : j = i := huniq j hjtr hjid
    rw [hji] at hjsome
    have : captureSend i = none := by simp [captureSend, hptt]
    rw [this] at hjsome
    simp at hjsome

/-- Concrete instantiation of `capture_forward_iff_active_connected`. -/
theorem capture_forward_iff_active_connected_witness :
    ((captureSend ⟨false, 512, true, true, 7⟩).isSome = true) ∧
    (7 ∉ captureRun [⟨false, 512, false, true, 7⟩, ⟨false, 512, true, true, 8⟩]) := by
  constructor
  · exact (capture_forward_iff_active_connected.1
      ⟨false, 512, true, true, 7⟩ rfl (by decide)).trans (by decide)
  · exact capture_forward_iff_active_connected.2
      [⟨false, 512, false, true, 7⟩, ⟨false, 512, true, true, 8⟩]
      ⟨false, 512, false, true, 7⟩ (by decide) rfl (by decide)

/-!
Main control loop (`loop`, main.cpp lines 907-978), steps 3 and 4.

Step 3 consumes a published PTT edge (`pttStateChanged`), sends the
`talk_start`/`talk_stop` control message when connected, and updates the
PTT label and LED.  Step 4 drives the incoming-audio indication from
`isReceivingAudio` / `lastAudioReceiveTime`.
-/

/-- Control message `talk_start` sent by `loop`. -/
def talkStartMsg : String := "\x7b\"type\":\"talk_start\"\x7d"

/-- Control message `talk_stop` sent by `loop`. -/
def talkStopMsg : String := "\x7b\"type\":\"talk_stop\"\x7d"

/-- The state read and written by steps 3-4 of `loop`: the two labels, the
LED colour, and the shared flags as the loop iteration sees them. -/
structure LoopState where
  pttLabel : String
  incomingLabel : String
  led : Rgb
  pttStateChanged : Bool
  isPttActive : Bool
  isReceivingAudio : Bool
  lastAudioReceiveTime : Nat
  isWebSocketConnected : Bool
deriving DecidableEq, Repr

/-- Step 3 of `loop`: if `pttStateChanged`, reset the flag and act on
`isPttActive` — send `talk_start`/`talk_stop` when connected, set the PTT
label to "TALKING"/"HOLD TO TALK" and the LED to green/off. Returns the
updated state and the control messages sent. -/
def pttPhase (s : LoopState) : LoopState × List String :=
  if s.pttStateChanged then
    if s.isPttActive then
      ({ s with pttStateChanged := false, pttLabel := "TALKING", led := green },
       if s.isWebSocketConnected then [talkStartMsg] else [])
    else
      ({ s with pttStateChanged := false, pttLabel := "HOLD TO TALK", led := ledOff },
       if s.isWebSocketConnected then [talkStopMsg] else [])
  else (s, [])

/-- Step 4 of `loop`: if `isReceivingAudio`, show "INCOMING"/orange unless
PTT is active, and reset the flag; otherwise, once
`millis() - lastAudioReceiveTime > AUDIO_DECAY_MS`, clear the incoming
label (if non-empty) and, unless PTT is active, turn the LED off.
`millis()` arithmetic is unsigned 32-bit. -/
def incomingPhase (now : Nat) (s : LoopState) : LoopState :=
  if s.isReceivingAudio then
    if !s.isPttActive then
      { s with incomingLabel := "INCOMING", led := orange, isReceivingAudio := false }
    else
      { s with isReceivingAudio := false }
  else if (now - s.lastAudioReceiveTime) % 2 ^ 32 > AUDIO_DECAY_MS then
    if s.incomingLabel ≠ "" then
      if !s.isPttActive then { s with incomingLabel := "", led := ledOff }
      else { s with incomingLabel := "" }
    else s
  else s

/-- Steps 3 and 4 of one `loop` iteration at time `now`. -/
def loopStep (now : Nat) (s : LoopState) : LoopState × List String :=
  ((incomingPhase now (pttPhase s).1), (pttPhase s).2)

/-- The status text currently presented: the source shows "INCOMING" on a
dedicated label that covers the PTT label when non-empty, so the presented
text is the incoming label when set and the PTT label otherwise. -/
def displayText (s : LoopState) : String :=
  if s.incomingLabel = "" then s.pttLabel else s.incomingLabel

/-- A loop state with a freshly published PTT edge carrying `ptt` and a
fresh incoming indication `incoming` (a frame just received at `now` when
`incoming`, last frame older than the decay window otherwise), before the
iteration that consumes them. -/
def freshState (now : Nat) (ptt incoming : Bool) : LoopState :=
  { pttLabel := "HOLD TO TALK", incomingLabel := "", led := ledOff,
    pttStateChanged := true, isPttActive := ptt,
    isReceivingAudio := incoming,
    lastAudioReceiveTime := if incoming then now else 0,
    isWebSocketConnected := true }

/-- The Presentation Reducer as implemented: the (text, colour) pair
presented after one loop iteration consumes a fresh (PttState,
incoming-active) pair.  `2000` is an arbitrary instant past the decay
window of the epoch. -/
def presentationReducer (ptt incoming : Bool) : String × Rgb :=
  ((displayText (loopStep 2000 (freshState 2000 ptt incoming)).1),
   (loopStep 2000 (freshState 2000 ptt incoming)).1.led)

/-- Claim C2: the Presentation Reducer is a pure total function of
(PttState, incoming-active) whose value at every pair is exactly the
corresponding row of the §4.6 table, and whenever PttState is active the
output is the TALKING row regardless of the incoming indication. -/
theorem presentation_reducer_table :
    (∀ ptt incoming : Bool,
      presentationReducer ptt incoming =
        if ptt then ("TALKING", green)
        else if incoming then ("INCOMING", orange)
        else ("HOLD TO TALK", ledOff)) ∧
    (∀ incoming : Bool, presentationReducer true incoming = ("TALKING", green)) := by
  refine ⟨fun ptt incoming => ?_, fun incoming => ?_⟩
  · cases ptt <;> cases incoming <;> rfl
  · cases incoming <;> rfl

/-- Claim C6: consuming a published PTT edge sends exactly one `talk_start`
(on activation) or `talk_stop` (on deactivation) control message when
Connected and none otherwise, and the presented PTT state (label and LED)
is updated according to the edge regardless of connectivity. -/
theorem ptt_edge_messages :
    ∀ s : LoopState, s.pttStateChanged = true →
      ((pttPhase s).2 =
        if s.isWebSocketConnected then
          [if s.isPttActive then talkStartMsg else talkStopMsg]
        else []) ∧
      ((pttPhase s).2.length = if s.isWebSocketConnected then 1 else 0) ∧
      ((pttPhase s).1.pttLabel =
        if s.isPttActive then "TALKING" else "HOLD TO TALK") ∧
      ((pttPhase s).1.led = if s.isPttActive then green else ledOff) ∧
      ((pttPhase s).1.isPttActive = s.isPttActive) := by
  intro s h
  cases ha : s.isPttActive <;> cases hc : s.isWebSocketConnected <;>
    simp [pttPhase, h, ha, hc]

/-- Concrete instantiation of `ptt_edge_messages`. -/
theorem ptt_edge_messages_witness :
    (pttPhase (freshState 2000 true true)).2 = [talkStartMsg] ∧
    (pttPhase (freshState 2000 true true)).1.led = green := by
  have h := ptt_edge_messages (freshState 2000 true true) rfl
  exact ⟨by rw [h.1]; rfl, by rw [h.2.2.2.1]; rfl⟩

/-!
Incoming-audio indicator (`webSocketEvent` WStype_BIN, lines 612-623,
and `loop` step 4, lines 947-970).

A received binary frame sets `lastAudioReceiveTime = millis()`.  The loop
clears the "incoming" presentation only once
`millis() - lastAudioReceiveTime > AUDIO_DECAY_MS`, so the derived
indication is active exactly while that guard is false.
-/

/-- The derived "incoming active" indication at time `now` given the last
`BinaryReceived` at time `last`: the negation of the decay guard
`millis() - lastAudioReceiveTime > AUDIO_DECAY_MS` of `loop` step 4
(unsigned 32-bit subtraction). -/
def incomingActive (now last : Nat) : Bool :=
  !decide ((now - last) % 2 ^ 32 > AUDIO_DECAY_MS)

/-- Claim C5, counterexample: the claim says the indication is false at
exactly `T + 1200 ms`; for a frame received at `T = 0`, the decay
guard `elapsed > 1200` has not yet fired at `t = 1200`, so the indication
is still true there. -/
theorem incoming_active_boundary_counterexample :
    incomingActive (0 + AUDIO_DECAY_MS) 0 = true := by decide

/-- Claim C5, amended: given a `BinaryReceived` at time `T` with no later
frames, the indication is true at every time in the closed interval
`[T, T + 1200 ms]` and false at every later time (within one 32-bit
wrap of `millis()`). -/
theorem incoming_active_window :
    ∀ T t : Nat, T ≤ t → t - T < 2 ^ 32 →
      (incomingActive t T = true ↔ t ≤ T + AUDIO_DECAY_MS) := by
  intro T t _ hlt
  unfold incomingActive AUDIO_DECAY_MS
  rw [Nat.mod_eq_of_lt hlt]
  simp only [Bool.not_eq_true', decide_eq_false_iff_not, gt_iff_lt, Nat.not_lt]
  omega

/-- Concrete instantiation of `incoming_active_window`. -/
theorem incoming_active_window_witness :
    incomingActive 1000 5 = true :=
  (incoming_active_window 5 1000 (by decide) (by decide)).mpr (by decide)

/-!
Playback path of `webSocketEvent` (WStype_BIN).

The handler updates the indicator state, writes the frame to I2S, and on a
short write only prints an error; it never aborts event handling.
-/

/-- One inbound binary frame: the requested `length` and the
`bytes_written` reported by `i2s_write`. -/
structure PlaybackInput where
  length : Nat
  bytesWritten : Nat
deriving DecidableEq, Repr

/-- The indicator state owned by the WStype_BIN handler. -/
structure IncomingState where
  lastAudioReceiveTime : Nat
  isReceivingAudio : Bool
deriving DecidableEq, Repr

/-- The WStype_BIN case of `webSocketEvent` at time `now`: set
`lastAudioReceiveTime = millis()` and `isReceivingAudio = true`, write the
frame, and report (print) an error iff `bytes_written != length`.  Returns
the new indicator state and whether an error was reported. -/
def binEvent (now : Nat) (p : PlaybackInput) (_s : IncomingState) :
    IncomingState × Bool :=
  (⟨now, true⟩, decide (p.bytesWritten ≠ p.length))

/-- Handling of a sequence of timed inbound binary frames: every event is
processed in turn; failed writes only accumulate reports. -/
def binRun : List (Nat × PlaybackInput) → IncomingState → IncomingState × List Bool
  | [], s => (s, [])
  | (now, p) :: rest, s =>
    ((binRun rest (binEvent now p s).1).1,
     (binEvent now p s).2 :: (binRun rest (binEvent now p s).1).2)

/-- Claim C8: audio input/output errors are never fatal: a capture iteration whose
read fails sends no frame and the remaining iterations of the loop are
unaffected; a playback write that fails is only reported — the indicator
is still updated and every subsequent inbound event is still handled. -/
theorem audio_io_errors_not_fatal :
    (∀ (i : CaptureInput) (rest : List CaptureInput), i.readErr = true →
      captureSend i = none ∧ captureRun (i :: rest) = captureRun rest) ∧
    (∀ (now : Nat) (p : PlaybackInput) (s : IncomingState),
      (binEvent now p s).1 = ⟨now, true⟩ ∧
      ((binEvent now p s).2 = true ↔ p.bytesWritten ≠ p.length)) ∧
    (∀ (events : List (Nat × PlaybackInput)) (s : IncomingState),
      (binRun events s).2.length = events.length) := by
  refine ⟨fun i rest h => ?_, fun now p s => ⟨rfl, by simp [binEvent]⟩,
    fun events => ?_⟩
  · have hnone : captureSend i = none := by simp [captureSend, h]
    exact ⟨hnone, by rw [captureRun, hnone]⟩
  · induction events with
    | nil => intro s; rfl
    | cons e rest ih =>
      intro s
      obtain ⟨now, p⟩ := e
      simp [binRun, ih]

/-- Concrete instantiation of `audio_io_errors_not_fatal`. -/
theorem audio_io_errors_not_fatal_witness :
    captureSend ⟨true, 512, true, true, 3⟩ = none ∧
    captureRun [⟨true, 512, true, true, 3⟩, ⟨false, 512, true, true, 4⟩] =
      captureRun [⟨false, 512, true, true, 4⟩] :=
  audio_io_errors_not_fatal.1 ⟨true, 512, true, true, 3⟩
    [⟨false, 512, true, true, 4⟩] rfl

/-!
Auth flow (`loginAndGetDevice` lines 472-584, `tryRegisterUser` lines
432-470).

The flow is a pure function of the responses of the server.  An environment
records the response to each request the flow may issue: the initial
`POST /token`, the `POST /register`, the retried `POST /token`, and the
`GET /devices/me`.  Body parsing with ArduinoJson is modelled by an
`Option String` field per extracted key; `as<String>()` serializes an
absent/null value to the string `"null"` and the source performs no check,
which `jsonStringField` captures.  The source returns a bare `bool`; each
distinct failure path is tagged here with the corresponding error of the
taxonomy of the spec (each path has a distinct log message and status label in the
source).
-/

structure TokenResp where
  status : Int
  accessToken : Option String
deriving DecidableEq, Repr

structure RegisterResp where
  status : Int
deriving DecidableEq, Repr

structure DeviceResp where
  status : Int
  deviceId : Option String
deriving DecidableEq, Repr

/-- The responses the server gives to the four possible requests. -/
structure AuthEnv where
  token1 : TokenResp
  register : RegisterResp
  token2 : TokenResp
  device : DeviceResp
deriving DecidableEq, Repr

/-- The kinds of HTTP request the flow issues, for request traces. -/
inductive Req
  | token
  | register
  | device
deriving DecidableEq, Repr

inductive AuthError
  | LoginFailedAfterRegister
  | RegisterFailed
  | TokenRequestFailed (status : Int)
  | DeviceLookupFailed (status : Int)
deriving DecidableEq, Repr

inductive AuthResult
  | ok (token deviceId : String)
  | err (e : AuthError)
deriving DecidableEq, Repr

/-- Extraction `doc["key"].as<String>()` with no error check: an absent or unparsed
value serializes to `"null"`. -/
def jsonStringField (o : Option String) : String := o.getD "null"

/-- Function `tryRegisterUser`: POSTs the registration and succeeds iff the status
is 200 or 201. -/
def tryRegisterUser (r : RegisterResp) : Bool :=
  r.status = 200 || r.status = 201

/-- The device-identity part of `loginAndGetDevice`: `GET /devices/me`;
any non-200 status is an error, a 200 body is used unchecked. -/
def devicePhase (d : DeviceResp) (tok : String) : AuthResult :=
  if d.status ≠ 200 then .err (.DeviceLookupFailed d.status)
  else .ok tok (jsonStringField d.deviceId)

/-- Function `loginAndGetDevice`: POST `/token`; on 401 register and, if
registration succeeded, retry the token request exactly once; any other
non-200 fails; then look up the device id.  Returns the result together
with the trace of requests issued. -/
def loginAndGetDevice (env : AuthEnv) : AuthResult × List Req :=
  if env.token1.status = 401 then
    if tryRegisterUser env.register then
      if env.token2.status ≠ 200 then
        (.err .LoginFailedAfterRegister, [.token, .register, .token])
      else
        (devicePhase env.device (jsonStringField env.token2.accessToken),
         [.token, .register, .token, .device])
    else (.err .RegisterFailed, [.token, .register])
  else if env.token1.status ≠ 200 then
    (.err (.TokenRequestFailed env.token1.status), [.token])
  else
    (devicePhase env.device (jsonStringField env.token1.accessToken),
     [.token, .device])

/-- Environment for the C4 counterexample: 401, then registration 200,
then the retried token request 200 — but the device lookup returns 500. -/
def envRetryThenDeviceFail : AuthEnv :=
  ⟨⟨401, none⟩, ⟨200⟩, ⟨200, some "tok"⟩, ⟨500, none⟩⟩

/-- Claim C4, counterexample: the claim says a successful retried token call
(after 401 and successful registration) yields Ok; but when the subsequent
device lookup fails the flow returns `DeviceLookupFailed`, not Ok. -/
theorem auth_retry_ok_counterexample :
    (loginAndGetDevice envRetryThenDeviceFail).1 =
      .err (.DeviceLookupFailed 500) := by rfl

/-- Claim C4, amended: on a 401, if registration succeeds (200/201) the
token request is retried exactly once (two token requests in total), and
success of that retry yields Ok provided the device lookup also returns
200; if the retry fails the result is `LoginFailedAfterRegister`; if
registration fails the result is `RegisterFailed` and no further token
request is attempted (exactly one token request in the trace). -/
theorem auth_401_register_retry :
    ∀ env : AuthEnv, env.token1.status = 401 →
      ((tryRegisterUser env.register = true → env.token2.status = 200 →
        ((loginAndGetDevice env).2.count .token = 2 ∧
         (env.device.status = 200 →
           (loginAndGetDevice env).1 =
             .ok (jsonStringField env.token2.accessToken)
               (jsonStringField env.device.deviceId)))) ∧
       (tryRegisterUser env.register = true → env.token2.status ≠ 200 →
         (loginAndGetDevice env).1 = .err .LoginFailedAfterRegister) ∧
       (tryRegisterUser env.register = false →
         (loginAndGetDevice env).1 = .err .RegisterFailed ∧
         (loginAndGetDevice env).2.count .token = 1)) := by
  intro env h401
  refine ⟨fun hreg h200 => ⟨?_, fun hdev => ?_⟩, fun hreg hne => ?_,
    fun hreg => ⟨?_, ?_⟩⟩
  · simp [loginAndGetDevice, h401, hreg, h200]
  · simp [loginAndGetDevice, devicePhase, h401, hreg, h200, hdev]
  · simp [loginAndGetDevice, h401, hreg, hne]
  · simp [loginAndGetDevice, h401, hreg]
  · simp [loginAndGetDevice, h401, hreg]

/-- Concrete instantiation of `auth_401_register_retry`. -/
theorem auth_401_register_retry_witness :
    (loginAndGetDevice ⟨⟨401, none⟩, ⟨500⟩, ⟨200, some "t"⟩, ⟨200, some "d"⟩⟩).1 =
      .err .RegisterFailed :=
  ((auth_401_register_retry
    ⟨⟨401, none⟩, ⟨500⟩, ⟨200, some "t"⟩, ⟨200, some "d"⟩⟩ rfl).2.2 (by decide)).1

/-- Environment for the C7 counterexample: token obtained, device lookup
answers 200 with a body from which no device id can be parsed. -/
def envDeviceMalformed : AuthEnv :=
  ⟨⟨200, some "tok"⟩, ⟨0⟩, ⟨0, none⟩, ⟨200, none⟩⟩

/-- Claim C7, counterexample: the claim says a malformed device-identity
response makes `authenticate` return `DeviceLookupFailed(status)` rather
than succeeding; but on a 200 response whose body has no parsable device
id the source performs no check and succeeds, with the serialized null as
the device id. -/
theorem device_malformed_counterexample :
    (loginAndGetDevice envDeviceMalformed).1 = .ok "tok" "null" := by rfl

/-- Claim C7, amended: when the device-identity response carries a non-200
status, the flow returns `DeviceLookupFailed(status)` rather than
succeeding; a 200 response is accepted unchecked — a malformed body yields
Ok with the serialized null id. -/
theorem device_lookup_status_check :
    ∀ env : AuthEnv, env.token1.status = 200 →
      ((env.device.status ≠ 200 →
        (loginAndGetDevice env).1 =
          .err (.DeviceLookupFailed env.device.status)) ∧
       (env.device.status = 200 →
        (loginAndGetDevice env).1 =
          .ok (jsonStringField env.token1.accessToken)
            (jsonStringField env.device.deviceId))) := by
  intro env h200
  refine ⟨fun hdev => ?_, fun hdev => ?_⟩ <;>
    simp [loginAndGetDevice, devicePhase, h200, hdev]

/-- Concrete instantiation of `device_lookup_status_check`. -/
theorem device_lookup_status_check_witness :
    (loginAndGetDevice ⟨⟨200, some "tok"⟩, ⟨0⟩, ⟨0, none⟩, ⟨404, none⟩⟩).1 =
      .err (.DeviceLookupFailed 404) :=
  (device_lookup_status_check
    ⟨⟨200, some "tok"⟩, ⟨0⟩, ⟨0, none⟩, ⟨404, none⟩⟩ rfl).1 (by decide)

/-!
Edge publication across tasks (lines 718-731 producer, 919-922 consumer).

`ptt_button_task` publishes an edge by writing the shared flags
`isPttActive = currentState; pttStateChanged = true`; the main loop
consumes by testing `pttStateChanged`, clearing it, and reading
`isPttActive`.  A system run is an arbitrary interleaving of atomic
producer publishes and consumer polls over the shared pair
(`isPttActive`, `pttStateChanged`), collecting the edge values the
consumer observes.  (Atomicity of each whole action is *generous* to the
source, whose individual flag accesses can interleave even finer.)
-/

inductive SchedAct
  | publish (v : Bool)
  | poll
deriving DecidableEq, Repr

/-- One scheduled action over
`((isPttActive, pttStateChanged), observations)`. -/
def schedStep :
    (Bool × Bool) × List Bool → SchedAct → (Bool × Bool) × List Bool
  | ((_a, _c), obs), .publish v => ((v, true), obs)
  | ((a, c), obs), .poll => if c then ((a, false), obs ++ [a]) else ((a, c), obs)

/-- Run a schedule from the initial state
(`isPttActive = false`, `pttStateChanged = false`, nothing observed). -/
def schedRun (acts : List SchedAct) : (Bool × Bool) × List Bool :=
  acts.foldl schedStep ((false, false), [])

/-- Number of published edges in a schedule. -/
def numEdges (acts : List SchedAct) : Nat :=
  acts.countP fun a => match a with | .publish _ => true | .poll => false

/-- Claim C9, counterexample: exactly-once delivery fails under the
interleaving that publishes two edges before the consumer polls: of the
two published edges only the last is observed — the earlier edge is lost
(the flag pair coalesces pending edges). -/
theorem edge_exactly_once_counterexample :
    numEdges [SchedAct.publish true, SchedAct.publish false, SchedAct.poll] = 2 ∧
    (schedRun [SchedAct.publish true, SchedAct.publish false, SchedAct.poll]).2 =
      [false] := by decide

/-- A schedule in which every published edge is polled by the consumer
before the next edge is published. -/
def pairedSchedule : List Bool → List SchedAct
  | [] => []
  | v :: rest => .publish v :: .poll :: pairedSchedule rest

/-- The last of a sequence of edge values, defaulting to `a`. -/
def lastEdge (a : Bool) : List Bool → Bool
  | [] => a
  | v :: rest => lastEdge v rest

/-- Run of a paired schedule from any flag state with a consumed edge. -/
theorem schedRun_pairedSchedule (edges : List Bool) :
    ∀ (a : Bool) (obs : List Bool),
      (pairedSchedule edges).foldl schedStep ((a, false), obs) =
        ((lastEdge a edges, false), obs ++ edges) := by
  induction edges with
  | nil => intro a obs; simp [pairedSchedule, lastEdge]
  | cons v rest ih =>
    intro a obs
    have h1 : schedStep ((a, false), obs) (.publish v) = ((v, true), obs) := rfl
    have h2 : schedStep ((v, true), obs) .poll = ((v, false), obs ++ [v]) := by
      simp [schedStep]
    rw [pairedSchedule, List.foldl_cons, h1, List.foldl_cons, h2, ih]
    simp [lastEdge]

/-- Claim C9, amended: the flag pair delivers each edge exactly once *only*
in the favourable interleavings: if the consumer polls after each publish
and before the next one, the observed events are exactly the published
edge values, in order; interleavings with two publishes between polls
lose all but the last pending edge (see the counterexample). -/
theorem edges_observed_when_polled_between :
    ∀ edges : List Bool, (schedRun (pairedSchedule edges)).2 = edges := by
  intro edges
  rw [schedRun, schedRun_pairedSchedule]
  simp

/-!
Credentials derived at startup (`setup`, lines 842-848; `getDeviceMAC`,
lines 154-167).

`setup` assigns `USERNAME = getDeviceMAC(); PASSWORD = USERNAME;`; the
source contains no other write to either variable, so the modelled
credentials are an immutable value.  `getDeviceMAC` formats the six MAC
bytes with `snprintf("%02X...")`.
-/

/-- One hex digit of `%02X` (uppercase). -/
def hexDigit (n : Nat) : Char :=
  if n < 10 then Char.ofNat (48 + n) else Char.ofNat (55 + n)

/-- One MAC byte under `%02X`. -/
def byteHex (b : Nat) : String :=
  String.mk [hexDigit (b / 16 % 16), hexDigit (b % 16)]

/-- Function `getDeviceMAC`: the six MAC bytes formatted as concatenated `%02X`. -/
def getDeviceMAC (mac : List Nat) : String :=
  String.join (mac.map byteHex)

/-- Record of `USERNAME`, `PASSWORD`, `FRIENDLY_NAME`: the Session
Credentials of the source. -/
structure Credentials where
  username : String
  password : String
  friendlyName : String
deriving DecidableEq, Repr

/-- The credential assignment in `setup`:
`USERNAME = getDeviceMAC(); PASSWORD = USERNAME;`. -/
def setupCredentials (mac : List Nat) (friendlyName : String) : Credentials :=
  { username := getDeviceMAC mac,
    password := getDeviceMAC mac,
    friendlyName := friendlyName }

/-- Claim C10: the Session Credentials secret equals the identifier: both
are the formatted device MAC, so the password carries no information
beyond the public hardware identifier.  The source never writes either
variable after `setup`, so the equality holds for the process lifetime. -/
theorem credentials_secret_equals_identifier :
    ∀ (mac : List Nat) (friendlyName : String),
      (setupCredentials mac friendlyName).password =
        (setupCredentials mac friendlyName).username ∧
      (setupCredentials mac friendlyName).username = getDeviceMAC mac := by
  intro mac friendlyName
  exact ⟨rfl, rfl⟩

end PTT
